import Mathlib

/-!
# Verification of the SearXNG search-tool adapter (`src/handler.py`)

Shallow embedding of the single-file Python adapter.  Python strings are
`String`, dict keys that may be absent are `Option`, machine integers are
`Int`/`Nat` (no overflow is relevant here), and a raised Python exception is
an `Except` error value.  The HTTP backend is a parameter: a function from the
0-indexed attempt number to the outcome of that physical attempt (a transport
exception, or an HTTP response with a status code and a JSON body).  The
externally observable effects the spec talks about — the sleeps performed by
`time.sleep`, the number of physical attempts, and the outbound request body —
are returned alongside the response as an execution trace.
-/

namespace Searxng

/-- Constant `_MAX_RETRIES = 3` (handler.py line 16). -/
def MAX_RETRIES : Nat := 3

/-- Constant `_BACKOFF_BASE = 2` (handler.py line 17). -/
def BACKOFF_BASE : Nat := 2

/-- Backoff delay `_BACKOFF_BASE * (2 ** attempt)` (handler.py lines 103, 138). -/
def backoffDelay (attempt : Nat) : Nat := BACKOFF_BASE * 2 ^ attempt

/-- The `params` dict.  Absent keys are `none`; `params.get(k, d)` is `getD`.
`limit` is typed as the documented integer (non-integer input is flagged as
undefined behaviour by the docstring of the handler and spec §7). -/
structure Params where
  query : Option String := none
  limit : Option Int := none
  categories : Option String := none
  time_range : Option String := none

/-- The `config` dict, with the documented value types. -/
structure Config where
  SEARXNG_URL : Option String := none
  SEARXNG_TIMEOUT : Option Int := none

/-- Resolution `config.get("SEARXNG_URL") or os.getenv("SEARXNG_URL", "http://localhost:8080")`
(handler.py line 39).  Python `or` treats `None` and `""` as falsy.  `envUrl`
is the `SEARXNG_URL` variable of the process environment, `none` when unset. -/
def resolveUrl (c : Config) (envUrl : Option String) : String :=
  match c.SEARXNG_URL with
  | some s => if s = "" then envUrl.getD "http://localhost:8080" else s
  | none => envUrl.getD "http://localhost:8080"

/-- Resolution `int(config.get("SEARXNG_TIMEOUT") or os.getenv("SEARXNG_TIMEOUT", "10"))`
(handler.py line 40), with the environment value already parsed to the
documented integer.  Python `or` treats `None` and `0` as falsy. -/
def resolveTimeout (c : Config) (envTimeout : Option Int) : Int :=
  match c.SEARXNG_TIMEOUT with
  | some t => if t = 0 then envTimeout.getD 10 else t
  | none => envTimeout.getD 10

/-- One raw item of the JSON `results` list of the backend; every field may be
absent (handler.py lines 120, 124-127 use `.get` with defaults). -/
structure Item where
  url : Option String := none
  title : Option String := none
  content : Option String := none
  engines : Option (List String) := none

/-- The dict `_search_searxng` builds per kept item (handler.py lines 123-128). -/
structure RawResult where
  title : String
  snippet : String
  url : String
  engine : String
deriving DecidableEq

/-- One formatted result of `execute` (handler.py lines 62-67). -/
structure FormattedResult where
  title : String
  snippet : String
  url : String
  engine : String
deriving DecidableEq

/-- The dict returned by `execute`: `error` is `none` when the key is absent. -/
structure Response where
  results : List FormattedResult
  count : Nat
  error : Option String := none
deriving DecidableEq

/-- The outbound form body (handler.py lines 82-90); `categories` and
`time_range` are `none` when the key is not put into the dict at all. -/
structure RequestBody where
  q : String
  format : String
  pageno : Nat
  categories : Option String := none
  time_range : Option String := none
deriving DecidableEq

/-- A Python exception as seen by the handler: `requests.exceptions.RequestException`
(including the `HTTPError` from `raise_for_status`) versus any other
exception (e.g. a JSON decode error).  The payload is `str(e)`. -/
inductive Exn where
  | request (msg : String)
  | other (msg : String)
deriving DecidableEq

/-- Message `str(e)` of an exception. -/
def Exn.msg : Exn → String
  | .request m => m
  | .other m => m

/-- The HTTP response object of one attempt, as far as the handler inspects
it: the status code, the message of the `HTTPError` that `raise_for_status`
would raise for it, and the result of `response.json()` (`Except.error` when
decoding raises; `none` inside when the `"results"` key is absent). -/
structure HttpResp where
  status : Nat
  httpErrMsg : String
  json : Except String (Option (List Item))

/-- Outcome of one physical `requests.post` attempt: a transport exception,
or an HTTP response object. -/
inductive Outcome where
  | reqExn (msg : String)
  | resp (r : HttpResp)

/-- Python `str.strip()`: drop leading and trailing whitespace.  Embedded
structurally over the character list so that it evaluates by kernel
reduction. -/
def pyStrip (s : String) : String :=
  ⟨((s.data.dropWhile Char.isWhitespace).reverse.dropWhile Char.isWhitespace).reverse⟩

/-- Python `str.lower()` (the handler only ever compares ASCII substrings). -/
def pyLower (s : String) : String :=
  ⟨s.data.map Char.toLower⟩

/-- Python slicing `s[:n]` on a string: the first `n` characters. -/
def strTake (s : String) (n : Nat) : String :=
  ⟨s.data.take n⟩

/-- Does the first list occur at the very start of the second list? -/
def matchesHere : List Char → List Char → Bool
  | [], _ => true
  | _ :: _, [] => false
  | a :: as, b :: bs => a == b && matchesHere as bs

/-- Helper for the Python `in` operator on strings: does `needle` occur as a
contiguous substring at some position of the list? -/
def containsAux (needle : List Char) : List Char → Bool
  | [] => needle.isEmpty
  | c :: rest => matchesHere needle (c :: rest) || containsAux needle rest

/-- Python `needle in haystack` on strings. -/
def containsSub (haystack needle : String) : Bool :=
  containsAux needle.data haystack.data

/-- The rate-limit test on the message of a transport exception (handler.py line 137):
`"429" in err_str or "rate" in err_str or "too many" in err_str` where
`err_str = str(e).lower()`. -/
def rateLimited (msg : String) : Bool :=
  let m := pyLower msg
  containsSub m "429" || containsSub m "rate" || containsSub m "too many"

/-- Test `response.status_code in (429, 502, 503, 504)` (handler.py line 102). -/
def retryStatus (s : Nat) : Bool :=
  s == 429 || s == 502 || s == 503 || s == 504

/-- Condition under which `response.raise_for_status()` raises: client (4xx)
and server (5xx) error codes. -/
def raisesForStatus (s : Nat) : Bool :=
  400 ≤ s && s < 600

/-- The dict built for one kept item (handler.py lines 123-128):
`", ".join(item.get("engines", ["unknown"]))` etc. -/
def mkRaw (item : Item) (url : String) : RawResult :=
  { title := item.title.getD ""
    snippet := item.content.getD ""
    url := url
    engine := String.intercalate ", " (item.engines.getD ["unknown"]) }

/-- The dedup-and-collect loop over `search_results` (handler.py lines 117-130).
`seen` is the `seen_urls` set, `count` is `len(results)` accumulated so far;
an item is appended when its `url` is non-empty and unseen, and the loop
breaks as soon as `len(results) >= limit` after an append. -/
def dedupGo (limit : Nat) : List Item → List String → Nat → List RawResult
  | [], _, _ => []
  | item :: rest, seen, count =>
    let url := item.url.getD ""
    if url ≠ "" ∧ url ∉ seen then
      let r := mkRaw item url
      if count + 1 ≥ limit then [r]
      else r :: dedupGo limit rest (url :: seen) (count + 1)
    else dedupGo limit rest seen count

/-- Deduplicated, limit-bounded mapping of the backend result list
(handler.py lines 117-132), starting from an empty list and empty seen set. -/
def dedupMap (items : List Item) (limit : Nat) : List RawResult :=
  dedupGo limit items [] 0

/-- Build the outbound request body (handler.py lines 82-90): `categories`
and `time_range` keys are added only when the string is truthy (non-empty). -/
def buildBody (query categories time_range : String) : RequestBody :=
  { q := query
    format := "json"
    pageno := 1
    categories := if categories ≠ "" then some categories else none
    time_range := if time_range ≠ "" then some time_range else none }

/-- Trace of one `_search_searxng` call: the returned list or the raised
exception, the `time.sleep` delays in order, and the number of physical
attempts made. -/
structure SearchTrace where
  result : Except Exn (List RawResult)
  sleeps : List Nat
  attempts : Nat

/-- The retry loop `for attempt in range(_MAX_RETRIES)` of `_search_searxng`
(handler.py lines 92-149).  `remaining` is the number of loop iterations
left, `attempt` the 0-indexed attempt counter, `lastErr` the `last_err`
variable, `sleeps` the sleeps so far in reverse.  When the loop falls
through, `raise last_err or requests.exceptions.RequestException("Search
retries exhausted")` (line 149). -/
def searchLoop (backend : Nat → Outcome) (limit : Nat) :
    Nat → Nat → Option Exn → List Nat → SearchTrace
  | 0, attempt, lastErr, sleeps =>
    ⟨.error (lastErr.getD (.request "Search retries exhausted")), sleeps.reverse, attempt⟩
  | remaining + 1, attempt, lastErr, sleeps =>
    match backend attempt with
    | .reqExn msg =>
      -- `except requests.exceptions.RequestException as e` (lines 134-145)
      if rateLimited msg then
        searchLoop backend limit remaining (attempt + 1) (some (.request msg))
          (backoffDelay attempt :: sleeps)
      else
        ⟨.error (.request msg), sleeps.reverse, attempt + 1⟩
    | .resp r =>
      if retryStatus r.status then
        -- lines 102-109: sleep and continue
        searchLoop backend limit remaining (attempt + 1) lastErr
          (backoffDelay attempt :: sleeps)
      else if raisesForStatus r.status then
        -- line 111: raise_for_status raises HTTPError, a RequestException,
        -- caught by the same except clause (lines 134-145)
        if rateLimited r.httpErrMsg then
          searchLoop backend limit remaining (attempt + 1) (some (.request r.httpErrMsg))
            (backoffDelay attempt :: sleeps)
        else
          ⟨.error (.request r.httpErrMsg), sleeps.reverse, attempt + 1⟩
      else
        match r.json with
        -- a JSON decode error is not a RequestException: it escapes the loop
        | .error m => ⟨.error (.other m), sleeps.reverse, attempt + 1⟩
        | .ok body => ⟨.ok (dedupMap (body.getD []) limit), sleeps.reverse, attempt + 1⟩

/-- Function `_search_searxng` (handler.py lines 77-149), with the HTTP layer
abstracted into `backend`. -/
def searchSearxng (backend : Nat → Outcome) (limit : Nat) : SearchTrace :=
  searchLoop backend limit MAX_RETRIES 0 none []

/-- Snippet truncation in `execute` (handler.py lines 59-61):
`snippet[:197] + "..."` when `len(snippet) > 200`. -/
def truncateSnippet (s : String) : String :=
  if s.length > 200 then strTake s 197 ++ "..." else s

/-- The per-result formatting of `execute` (handler.py lines 58-67); the
dicts from `_search_searxng` always carry all four keys, so the `.get`
defaults never fire. -/
def formatResult (r : RawResult) : FormattedResult :=
  { title := r.title
    snippet := truncateSnippet r.snippet
    url := r.url
    engine := r.engine }

/-- Limit defaulting and clamping of `execute` (handler.py lines 43-44):
`limit = params.get("limit", 5)` then `limit = max(1, min(20, limit))`. -/
def clampLimit (l : Option Int) : Nat :=
  (max 1 (min 20 (l.getD 5))).toNat

/-- Trace of one `execute` call: the returned response, the sleeps, the
number of physical HTTP attempts, and the outbound request body
(`none` when no network activity happened). -/
structure ExecTrace where
  response : Response
  sleeps : List Nat
  attempts : Nat
  requestBody : Option RequestBody

/-- Function `execute(topic, params, config, telemetry)` (handler.py lines 20-72).
`topic` is accepted and unused; `envUrl`/`envTimeout` are the process
environment; `backend` is the HTTP layer.  The resolved URL and timeout do
not influence anything this model observes beyond the backend behaviour
itself, but are computed to mirror lines 39-40. -/
def execute (_topic : String) (params : Params) (config : Config)
    (envUrl : Option String) (envTimeout : Option Int)
    (backend : Nat → Outcome) : ExecTrace :=
  let _url := resolveUrl config envUrl
  let _timeout := resolveTimeout config envTimeout
  let query := pyStrip (params.query.getD "")
  let limit : Nat := clampLimit params.limit
  let categories := pyStrip (params.categories.getD "")
  let time_range := pyStrip (params.time_range.getD "")
  if query = "" then
    ⟨⟨[], 0, none⟩, [], 0, none⟩
  else
    let body := buildBody query categories time_range
    let t := searchSearxng backend limit
    match t.result with
    | .error e =>
      ⟨⟨[], 0, some (strTake (Exn.msg e) 200)⟩, t.sleeps, t.attempts, some body⟩
    | .ok rs =>
      let formatted := rs.map formatResult
      ⟨⟨formatted, formatted.length, none⟩, t.sleeps, t.attempts, some body⟩

/-! ## General lemmas about the embedding -/

theorem strLength_take (s : String) (n : Nat) : (strTake s n).length = min n s.length := by
  show (s.data.take n).length = min n s.data.length
  rw [List.length_take]

theorem strTake_of_le (s : String) (n : Nat) (h : s.length ≤ n) : strTake s n = s := by
  unfold strTake
  rw [List.take_of_length_le h]

theorem strLength_append (s t : String) : (s ++ t).length = s.length + t.length := by
  show (s ++ t).data.length = s.data.length + t.data.length
  rw [String.data_append, List.length_append]

theorem clampLimit_pos (l : Option Int) : 0 < clampLimit l := by
  unfold clampLimit
  omega

theorem mkRaw_url (item : Item) (url : String) : (mkRaw item url).url = url := rfl

theorem formatResult_url (r : RawResult) : (formatResult r).url = r.url := rfl

/-- Every URL produced by the dedup loop is absent from the incoming `seen`
set, and the produced URLs are pairwise distinct. -/
theorem dedupGo_nodup (limit : Nat) (items : List Item) :
    ∀ (seen : List String) (count : Nat),
      (∀ u ∈ (dedupGo limit items seen count).map RawResult.url, u ∉ seen) ∧
      ((dedupGo limit items seen count).map RawResult.url).Nodup := by
  induction items with
  | nil => intro seen count; simp [dedupGo]
  | cons item rest ih =>
    intro seen count
    simp only [dedupGo]
    split
    · rename_i hkeep
      split
      · simpa [mkRaw] using hkeep.2
      · obtain ⟨ihseen, ihnodup⟩ := ih (item.url.getD "" :: seen) (count + 1)
        refine ⟨?_, ?_⟩
        · intro u hu
          simp only [List.map_cons, List.mem_cons] at hu
          rcases hu with rfl | hu
          · exact hkeep.2
          · exact fun hs => ihseen u hu (List.mem_cons_of_mem _ hs)
        · simp only [List.map_cons, List.nodup_cons]
          refine ⟨?_, ihnodup⟩
          intro hmem
          exact ihseen _ hmem (List.mem_cons_self _ _)
    · exact ih seen count

/-- Every result produced by the dedup loop has a non-empty URL. -/
theorem dedupGo_url_ne (limit : Nat) (items : List Item) :
    ∀ (seen : List String) (count : Nat),
      ∀ r ∈ dedupGo limit items seen count, r.url ≠ "" := by
  induction items with
  | nil => intro seen count; simp [dedupGo]
  | cons item rest ih =>
    intro seen count
    simp only [dedupGo]
    split
    · rename_i hkeep
      split
      · intro r hr
        simp only [List.mem_singleton] at hr
        subst hr
        exact hkeep.1
      · intro r hr
        rcases List.mem_cons.mp hr with rfl | hr
        · exact hkeep.1
        · exact ih _ _ r hr
    · exact ih seen count

/-- The dedup loop stops at the limit: starting below the limit, the length
of what it still produces plus the count so far stays within the limit. -/
theorem dedupGo_length (limit : Nat) (items : List Item) :
    ∀ (seen : List String) (count : Nat), count < limit →
      (dedupGo limit items seen count).length + count ≤ limit := by
  induction items with
  | nil => intro seen count h; simpa [dedupGo] using Nat.le_of_lt h
  | cons item rest ih =>
    intro seen count h
    simp only [dedupGo]
    split
    · split
      · simp only [List.length_singleton]
        omega
      · have := ih (item.url.getD "" :: seen) (count + 1) (by omega)
        simp only [List.length_cons]
        omega
    · exact ih seen count h

/-- Every result produced by the dedup loop is the mapping of some item of
the input list, keyed by its (non-defaulted) URL. -/
theorem dedupGo_mem (limit : Nat) (items : List Item) :
    ∀ (seen : List String) (count : Nat),
      ∀ r ∈ dedupGo limit items seen count,
        ∃ item ∈ items, r = mkRaw item (item.url.getD "") := by
  induction items with
  | nil => intro seen count; simp [dedupGo]
  | cons item rest ih =>
    intro seen count
    simp only [dedupGo]
    split
    · split
      · intro r hr
        simp only [List.mem_singleton] at hr
        exact ⟨item, List.mem_cons_self _ _, hr⟩
      · intro r hr
        rcases List.mem_cons.mp hr with rfl | hr
        · exact ⟨item, List.mem_cons_self _ _, rfl⟩
        · obtain ⟨it, hit, heq⟩ := ih _ _ r hr
          exact ⟨it, List.mem_cons_of_mem _ hit, heq⟩
    · intro r hr
      obtain ⟨it, hit, heq⟩ := ih _ _ r hr
      exact ⟨it, List.mem_cons_of_mem _ hit, heq⟩

/-- When the retry loop returns a list, that list is a limit-bounded
deduplicated mapping of some item list (the JSON body of the succeeding
attempt). -/
theorem searchLoop_ok (backend : Nat → Outcome) (limit : Nat) :
    ∀ (remaining attempt : Nat) (lastErr : Option Exn) (sleeps : List Nat)
      (rs : List RawResult),
      (searchLoop backend limit remaining attempt lastErr sleeps).result = .ok rs →
      ∃ items, rs = dedupMap items limit := by
  intro remaining
  induction remaining with
  | zero => intro attempt lastErr sleeps rs h; simp [searchLoop] at h
  | succ n ih =>
    intro attempt lastErr sleeps rs h
    rcases hb : backend attempt with msg | r
    · simp only [searchLoop, hb] at h
      split at h
      · exact ih _ _ _ rs h
      · simp at h
    · simp only [searchLoop, hb] at h
      split at h
      · exact ih _ _ _ rs h
      · split at h
        · split at h
          · exact ih _ _ _ rs h
          · simp at h
        · split at h
          · simp at h
          · rename_i body heq
            have hv : Except.ok (dedupMap (body.getD []) limit) = Except.ok rs := h
            exact ⟨body.getD [], (Except.ok.inj hv).symm⟩

/-- Case analysis of `execute`: either the response carries no results, or
its results are the formatted dedup mapping of some item list under the
clamped limit. -/
theorem execute_shape (topic : String) (params : Params) (config : Config)
    (envUrl : Option String) (envTimeout : Option Int) (backend : Nat → Outcome) :
    (execute topic params config envUrl envTimeout backend).response.results = [] ∨
    ∃ items,
      (execute topic params config envUrl envTimeout backend).response.results =
        (dedupMap items (clampLimit params.limit)).map formatResult := by
  simp only [execute]
  split
  · left; rfl
  · rcases hr : (searchSearxng backend (clampLimit params.limit)).result with e | rs
    · left; rfl
    · obtain ⟨items, hi⟩ :=
        searchLoop_ok backend (clampLimit params.limit) MAX_RETRIES 0 none [] rs hr
      right
      exact ⟨items, by rw [hi]⟩

/-- Truncation yields at most 200 characters. -/
theorem truncateSnippet_length (s : String) : (truncateSnippet s).length ≤ 200 := by
  unfold truncateSnippet
  split
  · rw [strLength_append, strLength_take]
    have : ("..." : String).length = 3 := rfl
    omega
  · omega

/-- On a source longer than 200 characters, truncation keeps the first 197
characters, appends the 3-character marker, and lands on exactly 200. -/
theorem truncateSnippet_long (s : String) (h : 200 < s.length) :
    truncateSnippet s = strTake s 197 ++ "..." ∧ (truncateSnippet s).length = 200 := by
  unfold truncateSnippet
  rw [if_pos h]
  refine ⟨rfl, ?_⟩
  rw [strLength_append, strLength_take]
  have : ("..." : String).length = 3 := rfl
  omega

/-- On a source of at most 200 characters, truncation is the identity. -/
theorem truncateSnippet_short (s : String) (h : s.length ≤ 200) :
    truncateSnippet s = s := by
  unfold truncateSnippet
  rw [if_neg (by omega)]

/-- One retry step of the loop on an HTTP 503 response: sleep the backoff
delay and continue with the next attempt. -/
theorem searchLoop_retry_503 (backend : Nat → Outcome) (limit remaining attempt : Nat)
    (lastErr : Option Exn) (sleeps : List Nat) (r : HttpResp)
    (hb : backend attempt = Outcome.resp r) (hs : r.status = 503) :
    searchLoop backend limit (remaining + 1) attempt lastErr sleeps =
      searchLoop backend limit remaining (attempt + 1) lastErr
        (backoffDelay attempt :: sleeps) := by
  simp only [searchLoop, hb, hs]
  simp [retryStatus]

/-! ## Claim theorems -/

/-- C1: for every input (topic, params, config, environment) and every
backend behaviour, `execute` never raises to its caller — in this embedding
it is a total function into `ExecTrace`, every exception of the search
routine being caught by the handler — and whenever a failure was caught the
response is `{results := [], count := 0, error := some m}` with the message
`m` cut to at most 200 characters. -/
theorem C1_execute_never_raises (topic : String) (params : Params) (config : Config)
    (envUrl : Option String) (envTimeout : Option Int) (backend : Nat → Outcome) :
    (execute topic params config envUrl envTimeout backend).response.error = none ∨
    ∃ m,
      (execute topic params config envUrl envTimeout backend).response =
        ⟨[], 0, some m⟩ ∧ m.length ≤ 200 := by
  simp only [execute]
  split
  · left; rfl
  · rcases hr : (searchSearxng backend (clampLimit params.limit)).result with e | rs
    · right
      refine ⟨strTake (Exn.msg e) 200, rfl, ?_⟩
      rw [strLength_take]
      omega
    · left; rfl

/-- C6: for every input and every outcome (success, empty query, or
failure), the returned response satisfies `count = results.length`. -/
theorem C6_count_eq_length (topic : String) (params : Params) (config : Config)
    (envUrl : Option String) (envTimeout : Option Int) (backend : Nat → Outcome) :
    (execute topic params config envUrl envTimeout backend).response.count =
      (execute topic params config envUrl envTimeout backend).response.results.length := by
  simp only [execute]
  split
  · rfl
  · rcases hr : (searchSearxng backend (clampLimit params.limit)).result with e | rs <;> rfl

/-- C3: for every input and every backend behaviour, the `url` values among
the returned results are pairwise distinct, and none of them is the empty
string (items with an empty or missing URL are skipped). -/
theorem C3_urls_distinct (topic : String) (params : Params) (config : Config)
    (envUrl : Option String) (envTimeout : Option Int) (backend : Nat → Outcome) :
    ((execute topic params config envUrl envTimeout backend).response.results.map
      FormattedResult.url).Nodup ∧
    ∀ f ∈ (execute topic params config envUrl envTimeout backend).response.results,
      f.url ≠ "" := by
  rcases execute_shape topic params config envUrl envTimeout backend with h | ⟨items, h⟩
  · rw [h]
    exact ⟨List.nodup_nil, by simp⟩
  · rw [h]
    constructor
    · have hmaps :
          ((dedupMap items (clampLimit params.limit)).map formatResult).map
              FormattedResult.url =
            (dedupMap items (clampLimit params.limit)).map RawResult.url := by
        rw [List.map_map]
        rfl
      rw [hmaps]
      exact (dedupGo_nodup (clampLimit params.limit) items [] 0).2
    · intro f hf
      obtain ⟨r, hr, rfl⟩ := List.mem_map.mp hf
      rw [formatResult_url]
      exact dedupGo_url_ne (clampLimit params.limit) items [] 0 r hr

/-- C4: every result returned by `execute` carries a snippet of at most 200
characters; moreover every kept result of the mapping loop takes its stored
snippet from the `content` field of the item it was built from, and the
formatting step applies the truncation rule to exactly that source string: a
source longer than 200 characters is replaced by its first 197 characters
followed by the 3-character ellipsis marker (200 characters in total), and
anything else is kept unchanged. -/
theorem C4_snippet_truncation (topic : String) (params : Params) (config : Config)
    (envUrl : Option String) (envTimeout : Option Int) (backend : Nat → Outcome)
    (items : List Item) (limit : Nat) (r : RawResult)
    (hr : r ∈ dedupMap items limit) :
    (∀ f ∈ (execute topic params config envUrl envTimeout backend).response.results,
      f.snippet.length ≤ 200) ∧
    ∃ item ∈ items,
      r.snippet = item.content.getD "" ∧
      (formatResult r).snippet = truncateSnippet (item.content.getD "") ∧
      (200 < (item.content.getD "").length →
        (formatResult r).snippet = strTake (item.content.getD "") 197 ++ "..." ∧
        (formatResult r).snippet.length = 200) ∧
      ((item.content.getD "").length ≤ 200 →
        (formatResult r).snippet = item.content.getD "") := by
  constructor
  · intro f hf
    rcases execute_shape topic params config envUrl envTimeout backend with h | ⟨its, h⟩
    · rw [h] at hf
      simp at hf
    · rw [h] at hf
      obtain ⟨r', hr', rfl⟩ := List.mem_map.mp hf
      exact truncateSnippet_length r'.snippet
  · obtain ⟨item, hit, heq⟩ := dedupGo_mem limit items [] 0 r hr
    subst heq
    have hsrc : (mkRaw item (item.url.getD "")).snippet = item.content.getD "" := rfl
    have hfmt : (formatResult (mkRaw item (item.url.getD ""))).snippet =
        truncateSnippet (item.content.getD "") := rfl
    refine ⟨item, hit, hsrc, hfmt, ?_, ?_⟩
    · intro hlong
      rw [hfmt]
      exact truncateSnippet_long (item.content.getD "") hlong
    · intro hshort
      rw [hfmt]
      exact truncateSnippet_short (item.content.getD "") hshort

/-- Witness for C4 at a concrete one-item run with a short snippet. -/
theorem C4_snippet_truncation_witness :
    (∀ f ∈ (execute "t" ⟨some "q", none, none, none⟩ ⟨none, none⟩ none none
        (fun _ => Outcome.resp ⟨200, "",
          .ok (some [⟨some "u", none, some "hello", none⟩])⟩)).response.results,
      f.snippet.length ≤ 200) ∧
    ∃ item ∈ [(⟨some "u", none, some "hello", none⟩ : Item)],
      (⟨"", "hello", "u", "unknown"⟩ : RawResult).snippet = item.content.getD "" ∧
      (formatResult ⟨"", "hello", "u", "unknown"⟩).snippet =
        truncateSnippet (item.content.getD "") ∧
      (200 < (item.content.getD "").length →
        (formatResult ⟨"", "hello", "u", "unknown"⟩).snippet =
          strTake (item.content.getD "") 197 ++ "..." ∧
        (formatResult ⟨"", "hello", "u", "unknown"⟩).snippet.length = 200) ∧
      ((item.content.getD "").length ≤ 200 →
        (formatResult ⟨"", "hello", "u", "unknown"⟩).snippet = item.content.getD "") :=
  C4_snippet_truncation "t" ⟨some "q", none, none, none⟩ ⟨none, none⟩ none none
    (fun _ => Outcome.resp ⟨200, "", .ok (some [⟨some "u", none, some "hello", none⟩])⟩)
    [⟨some "u", none, some "hello", none⟩] 5 ⟨"", "hello", "u", "unknown"⟩ (by decide)

/-- C5: the number of returned results never exceeds the clamped limit
`clamp(limit, 1, 20)` with default 5; in particular a supplied limit of 0 is
clamped to 1, and a supplied limit of 50 is clamped to 20. -/
theorem C5_limit_clamped (topic : String) (params : Params) (config : Config)
    (envUrl : Option String) (envTimeout : Option Int) (backend : Nat → Outcome) :
    (execute topic params config envUrl envTimeout backend).response.results.length ≤
      clampLimit params.limit ∧
    clampLimit (some 0) = 1 ∧ clampLimit (some 50) = 20 ∧ clampLimit none = 5 := by
  refine ⟨?_, by decide, by decide, by decide⟩
  rcases execute_shape topic params config envUrl envTimeout backend with h | ⟨items, h⟩
  · rw [h]
    exact Nat.zero_le _
  · rw [h]
    rw [List.length_map]
    have := dedupGo_length (clampLimit params.limit) items [] 0
      (clampLimit_pos params.limit)
    simpa [dedupMap] using this

/-- C7: a query that is empty after trimming short-circuits: the response is
`{results := [], count := 0}` with no error field, no sleeps, no outbound
HTTP attempt, and no request body built. -/
theorem C7_empty_query (topic : String) (params : Params) (config : Config)
    (envUrl : Option String) (envTimeout : Option Int) (backend : Nat → Outcome)
    (hq : pyStrip (params.query.getD "") = "") :
    execute topic params config envUrl envTimeout backend =
      ⟨⟨[], 0, none⟩, [], 0, none⟩ := by
  simp [execute, hq]

/-- Witness for C7 at the concrete whitespace-only query `"   "`. -/
theorem C7_empty_query_witness :
    execute "t" ⟨some "   ", none, none, none⟩ ⟨none, none⟩ none none
        (fun _ => .resp ⟨200, "", .ok none⟩) =
      ⟨⟨[], 0, none⟩, [], 0, none⟩ :=
  C7_empty_query "t" ⟨some "   ", none, none, none⟩ ⟨none, none⟩ none none
    (fun _ => .resp ⟨200, "", .ok none⟩) (by decide)

/-- C2 refuted as stated: with a backend answering HTTP 503 on every
attempt, the adapter does sleep between attempts, but the backoff sleep also
runs after the third and final attempt, so the sleep sequence is
`[2, 4, 8]` and not the claimed `[2, 4]`. -/
theorem C2_counterexample :
    (execute "t" ⟨some "q", none, none, none⟩ ⟨none, none⟩ none none
        (fun _ => Outcome.resp ⟨503, "", .ok none⟩)).sleeps = [2, 4, 8] ∧
    (execute "t" ⟨some "q", none, none, none⟩ ⟨none, none⟩ none none
        (fun _ => Outcome.resp ⟨503, "", .ok none⟩)).sleeps ≠ [2, 4] := by
  decide

/-- C2 (amended): if the backend returns HTTP 503 on all three attempts and
the query is non-empty after trimming, the adapter makes exactly 3 outbound
attempts, sleeps 2s, 4s and 8s — the backoff `2 * 2 ^ attempt` runs after
every retryable attempt, including the final one — and then returns the
failure response whose error field is the non-empty message of the
synthetic retries-exhausted exception. -/
theorem C2_all_503 (topic : String) (params : Params) (config : Config)
    (envUrl : Option String) (envTimeout : Option Int) (backend : Nat → Outcome)
    (hq : pyStrip (params.query.getD "") ≠ "")
    (hb : ∀ i, i < 3 → ∃ r, backend i = Outcome.resp r ∧ r.status = 503) :
    (execute topic params config envUrl envTimeout backend).attempts = 3 ∧
    (execute topic params config envUrl envTimeout backend).sleeps = [2, 4, 8] ∧
    (execute topic params config envUrl envTimeout backend).response =
      ⟨[], 0, some "Search retries exhausted"⟩ ∧
    "Search retries exhausted" ≠ "" := by
  have key : searchSearxng backend (clampLimit params.limit) =
      ⟨.error (.request "Search retries exhausted"), [2, 4, 8], 3⟩ := by
    obtain ⟨r0, hb0, hs0⟩ := hb 0 (by omega)
    obtain ⟨r1, hb1, hs1⟩ := hb 1 (by omega)
    obtain ⟨r2, hb2, hs2⟩ := hb 2 (by omega)
    unfold searchSearxng MAX_RETRIES
    rw [searchLoop_retry_503 backend _ 2 0 none [] r0 hb0 hs0,
      searchLoop_retry_503 backend _ 1 1 none _ r1 hb1 hs1,
      searchLoop_retry_503 backend _ 0 2 none _ r2 hb2 hs2]
    rfl
  simp only [execute]
  rw [if_neg hq, key]
  exact ⟨rfl, rfl, rfl, by decide⟩

/-- Witness for C2 (amended) at a concrete always-503 backend. -/
theorem C2_all_503_witness :
    (execute "t" ⟨some "q", none, none, none⟩ ⟨none, none⟩ none none
        (fun _ => Outcome.resp ⟨503, "", .ok none⟩)).attempts = 3 ∧
    (execute "t" ⟨some "q", none, none, none⟩ ⟨none, none⟩ none none
        (fun _ => Outcome.resp ⟨503, "", .ok none⟩)).sleeps = [2, 4, 8] ∧
    (execute "t" ⟨some "q", none, none, none⟩ ⟨none, none⟩ none none
        (fun _ => Outcome.resp ⟨503, "", .ok none⟩)).response =
      ⟨[], 0, some "Search retries exhausted"⟩ ∧
    "Search retries exhausted" ≠ "" :=
  C2_all_503 "t" ⟨some "q", none, none, none⟩ ⟨none, none⟩ none none
    (fun _ => Outcome.resp ⟨503, "", .ok none⟩) (by decide)
    (fun i _ => ⟨⟨503, "", .ok none⟩, rfl, rfl⟩)

/-- C8: a transport-level failure raised during an attempt is classified by
its message: when the lowercased message does not contain "429", "rate" or
"too many", it propagates immediately as a failure with no further attempt;
when it does, the adapter sleeps the backoff delay, records the failure as
the last error, and retries. -/
theorem C8_transport_failure (backend : Nat → Outcome) (limit remaining attempt : Nat)
    (lastErr : Option Exn) (sleeps : List Nat) (msg : String)
    (hb : backend attempt = Outcome.reqExn msg) :
    (rateLimited msg = false →
      searchLoop backend limit (remaining + 1) attempt lastErr sleeps =
        ⟨.error (.request msg), sleeps.reverse, attempt + 1⟩) ∧
    (rateLimited msg = true →
      searchLoop backend limit (remaining + 1) attempt lastErr sleeps =
        searchLoop backend limit remaining (attempt + 1) (some (.request msg))
          (backoffDelay attempt :: sleeps)) := by
  constructor <;> intro h <;> simp [searchLoop, hb, h]

/-- Witness for C8 at a concrete non-rate-limit transport failure. -/
theorem C8_transport_failure_witness :
    (rateLimited "Connection refused" = false →
      searchLoop (fun _ => Outcome.reqExn "Connection refused") 5 (2 + 1) 0 none [] =
        ⟨.error (.request "Connection refused"), [].reverse, 0 + 1⟩) ∧
    (rateLimited "Connection refused" = true →
      searchLoop (fun _ => Outcome.reqExn "Connection refused") 5 (2 + 1) 0 none [] =
        searchLoop (fun _ => Outcome.reqExn "Connection refused") 5 2 (0 + 1)
          (some (.request "Connection refused")) (backoffDelay 0 :: [])) :=
  C8_transport_failure (fun _ => Outcome.reqExn "Connection refused") 5 2 0 none []
    "Connection refused" rfl

/-- C9: every call that reaches the network sends a body holding exactly the
trimmed query as `q`, the string "json" as `format` and 1 as `pageno`, and
holding `categories` and `time_range` only when they are non-empty after
trimming — when empty they are absent from the body, not sent as empty
strings. -/
theorem C9_request_body (topic : String) (params : Params) (config : Config)
    (envUrl : Option String) (envTimeout : Option Int) (backend : Nat → Outcome)
    (hq : pyStrip (params.query.getD "") ≠ "") :
    ∃ b, (execute topic params config envUrl envTimeout backend).requestBody = some b ∧
      b.q = pyStrip (params.query.getD "") ∧
      b.format = "json" ∧
      b.pageno = 1 ∧
      (pyStrip (params.categories.getD "") = "" → b.categories = none) ∧
      (pyStrip (params.categories.getD "") ≠ "" →
        b.categories = some (pyStrip (params.categories.getD ""))) ∧
      (pyStrip (params.time_range.getD "") = "" → b.time_range = none) ∧
      (pyStrip (params.time_range.getD "") ≠ "" →
        b.time_range = some (pyStrip (params.time_range.getD ""))) := by
  simp only [execute]
  rw [if_neg hq]
  refine ⟨buildBody (pyStrip (params.query.getD "")) (pyStrip (params.categories.getD ""))
    (pyStrip (params.time_range.getD "")), ?_, rfl, rfl, rfl, ?_, ?_, ?_, ?_⟩
  · rcases hr : (searchSearxng backend (clampLimit params.limit)).result with e | rs <;> rfl
  · intro h
    simp [buildBody, h]
  · intro h
    simp [buildBody, h]
  · intro h
    simp [buildBody, h]
  · intro h
    simp [buildBody, h]

/-- Witness for C9: query `" q "`, empty categories, time_range `" w "`. -/
theorem C9_request_body_witness :
    ∃ b, (execute "t" ⟨some " q ", none, some "", some " w "⟩ ⟨none, none⟩ none none
        (fun _ => Outcome.resp ⟨200, "", .ok none⟩)).requestBody = some b ∧
      b.q = pyStrip ((Params.mk (some " q ") none (some "") (some " w ")).query.getD "") ∧
      b.format = "json" ∧
      b.pageno = 1 ∧
      (pyStrip ((Params.mk (some " q ") none (some "") (some " w ")).categories.getD "") = "" →
        b.categories = none) ∧
      (pyStrip ((Params.mk (some " q ") none (some "") (some " w ")).categories.getD "") ≠ "" →
        b.categories =
          some (pyStrip ((Params.mk (some " q ") none (some "") (some " w ")).categories.getD ""))) ∧
      (pyStrip ((Params.mk (some " q ") none (some "") (some " w ")).time_range.getD "") = "" →
        b.time_range = none) ∧
      (pyStrip ((Params.mk (some " q ") none (some "") (some " w ")).time_range.getD "") ≠ "" →
        b.time_range =
          some (pyStrip ((Params.mk (some " q ") none (some "") (some " w ")).time_range.getD ""))) :=
  C9_request_body "t" ⟨some " q ", none, some "", some " w "⟩ ⟨none, none⟩ none none
    (fun _ => Outcome.resp ⟨200, "", .ok none⟩) (by decide)

/-- C10 refuted as stated: an item that does carry an `engines` key with the
value `["unknown"]` also yields the engine string "unknown", so the string
"unknown" does not arise only from an absent `engines` key. -/
theorem C10_counterexample :
    ((execute "t" ⟨some "q", none, none, none⟩ ⟨none, none⟩ none none
        (fun _ => Outcome.resp ⟨200, "",
          .ok (some [⟨some "http://a", none, none, some ["unknown"]⟩])⟩)).response.results.map
      FormattedResult.engine) = ["unknown"] ∧
    (⟨some "http://a", none, none, some ["unknown"]⟩ : Item).engines ≠ none := by
  decide

/-- C10 (amended): every kept result takes its engine field from the item it
was built from: the `engines` list joined by ", " when the key is present —
an empty list giving the empty string — and the string "unknown" when the
key is absent.  A present key whose join happens to be "unknown" (such as
`["unknown"]`) is indistinguishable from the absent case in the output. -/
theorem C10_engine_join (items : List Item) (limit : Nat) (r : RawResult)
    (hr : r ∈ dedupMap items limit) :
    ∃ item ∈ items,
      r.engine = String.intercalate ", " (item.engines.getD ["unknown"]) ∧
      (∀ es, item.engines = some es → r.engine = String.intercalate ", " es) ∧
      (item.engines = some [] → r.engine = "") ∧
      (item.engines = none → r.engine = "unknown") := by
  obtain ⟨item, hit, heq⟩ := dedupGo_mem limit items [] 0 r hr
  subst heq
  refine ⟨item, hit, rfl, ?_, ?_, ?_⟩
  · intro es hes
    simp [mkRaw, hes]
  · intro hes
    simp [mkRaw, hes]
    rfl
  · intro hes
    simp [mkRaw, hes]
    rfl

/-- Witness for C10 (amended) at a one-item list with no `engines` key. -/
theorem C10_engine_join_witness :
    ∃ item ∈ [(⟨some "u", none, none, none⟩ : Item)],
      (⟨"", "", "u", "unknown"⟩ : RawResult).engine =
        String.intercalate ", " (item.engines.getD ["unknown"]) ∧
      (∀ es, item.engines = some es →
        (⟨"", "", "u", "unknown"⟩ : RawResult).engine = String.intercalate ", " es) ∧
      (item.engines = some [] → (⟨"", "", "u", "unknown"⟩ : RawResult).engine = "") ∧
      (item.engines = none → (⟨"", "", "u", "unknown"⟩ : RawResult).engine = "unknown") :=
  C10_engine_join [⟨some "u", none, none, none⟩] 5 ⟨"", "", "u", "unknown"⟩ (by decide)

end Searxng
